import Mathlib

/-!
Verification of the artefact-naming, latest-artefact resolution and
model-envelope logic of `bodywork_pipeline_utils` (files
`aws/artefacts.py`, `aws/datasets.py`, `aws/models.py`, `aws/s3.py`).

Strings are modelled as `List Char`, read codepoint by codepoint; the
character classes of Python's `re` module (`\d`, `\W`, `\s`) and
`str.lower` are modelled over the ASCII range, which covers every input
appearing in the theorems below.  Timestamps are modelled at the second
precision used throughout the library.  Calls into the storage backend
are modelled by explicit parameters: a listing is an
`Except String (List S3Obj)` (error = the backend call raised), and the
outcome of `pickle.dumps` is a `DumpsResult` value.
-/

namespace BPU

/-- Calendar date-time with second precision: the shallow embedding of the
Python `datetime` values produced and consumed by this library (its
filename codec always truncates to whole seconds). -/
structure DateTime where
  year : Nat
  month : Nat
  day : Nat
  hour : Nat
  minute : Nat
  second : Nat
deriving DecidableEq, Repr

instance exceptDecEq {ε α : Type} [DecidableEq ε] [DecidableEq α] : DecidableEq (Except ε α)
  | .error e, .error f =>
    if h : e = f then .isTrue (by rw [h]) else .isFalse (fun c => h (by cases c; rfl))
  | .error _, .ok _ => .isFalse (fun c => Except.noConfusion c)
  | .ok _, .error _ => .isFalse (fun c => Except.noConfusion c)
  | .ok a, .ok b =>
    if h : a = b then .isTrue (by rw [h]) else .isFalse (fun c => h (by cases c; rfl))

/-- Python regex word character `\w` (ASCII range): letter, digit or underscore. -/
def isWordChar (c : Char) : Bool := c.isAlphanum || c == '_'

/-- Python regex `\W`: any character that is not a word character. -/
def isNonWord (c : Char) : Bool := !(isWordChar c)

/-- Python regex `\s` (ASCII range): space, tab, newline, carriage return,
vertical tab or form feed. -/
def isSpaceChar (c : Char) : Bool :=
  c == ' ' || c == '\t' || c == '\n' || c == '\r' || c == '\x0b' || c == '\x0c'

/-- The character class `[\sT]` used between the date and time parts. -/
def isSepST (c : Char) : Bool := isSpaceChar c || c == 'T'

/-- A fixed-width regex alternative: one predicate per character consumed. -/
def matchesPat : List (Char → Bool) → List Char → Bool
  | [], _ => true
  | _ :: _, [] => false
  | p :: ps, c :: cs => p c && matchesPat ps cs

/-- First alternative of the timestamp regex in
`S3TimestampedArtefact._extract_iso_timestamp_from_string`:
`\d{4}\W\d{2}\W\d{2}[\sT]\d{2}\W\d{2}\W\d{2}` (19 characters). -/
def fullPat : List (Char → Bool) :=
  [Char.isDigit, Char.isDigit, Char.isDigit, Char.isDigit, isNonWord,
   Char.isDigit, Char.isDigit, isNonWord, Char.isDigit, Char.isDigit,
   isSepST, Char.isDigit, Char.isDigit, isNonWord, Char.isDigit, Char.isDigit,
   isNonWord, Char.isDigit, Char.isDigit]

/-- Second alternative of the timestamp regex: `\d{4}\W\d{2}\W\d{2}` (10 characters). -/
def datePat : List (Char → Bool) :=
  [Char.isDigit, Char.isDigit, Char.isDigit, Char.isDigit, isNonWord,
   Char.isDigit, Char.isDigit, isNonWord, Char.isDigit, Char.isDigit]

/-- `re.findall(regex, s)[0]` for the timestamp regex: scan left to right;
at each position try the full date-time alternative first, then the bare
date alternative; return the leftmost match. -/
def findTs : List Char → Option (List Char)
  | [] => none
  | c :: cs =>
    if matchesPat fullPat (c :: cs) then some ((c :: cs).take 19)
    else if matchesPat datePat (c :: cs) then some ((c :: cs).take 10)
    else findTs cs

/-- `re.sub(r"[\sT](\d{2})\W(\d{2})\W(\d{2})", r"T\1:\2:\3", s)`: replace
every leftmost non-overlapping match of the 9-character time pattern by
`T`, the three digit groups separated by colons. -/
def subNorm : List Char → List Char
  | a :: b :: c :: d :: e :: f :: g :: h :: i :: rest =>
    if isSepST a && b.isDigit && c.isDigit && isNonWord d && e.isDigit && f.isDigit
        && isNonWord g && h.isDigit && i.isDigit then
      'T' :: b :: c :: ':' :: e :: f :: ':' :: h :: i :: subNorm rest
    else
      a :: subNorm (b :: c :: d :: e :: f :: g :: h :: i :: rest)
  | c :: cs => c :: subNorm cs
  | [] => []

/-- Numeric value of an ASCII digit character. -/
def digitVal (c : Char) : Nat := c.toNat - '0'.toNat

/-- Value of a two-digit group. -/
def val2 (a b : Char) : Nat := 10 * digitVal a + digitVal b

/-- Value of a four-digit group. -/
def val4 (a b c d : Char) : Nat :=
  1000 * digitVal a + 100 * digitVal b + 10 * digitVal c + digitVal d

/-- Gregorian leap-year rule used by Python's `datetime`. -/
def isLeapYear (y : Nat) : Bool := (y % 4 == 0 && y % 100 != 0) || y % 400 == 0

/-- Number of days in a month, as validated by Python's `datetime`. -/
def daysInMonth (y m : Nat) : Nat :=
  if m == 2 then (if isLeapYear y then 29 else 28)
  else if m == 4 || m == 6 || m == 9 || m == 11 then 30
  else 31

/-- The `ValueError` message raised by `datetime.fromisoformat` on a
structurally malformed string. -/
def invalidIsoMsg (l : List Char) : String :=
  ("Invalid isoformat string: '" : String) ++ String.mk l ++ ("'" : String)

/-- Range validation performed by the `datetime` constructor, with the
`ValueError` messages it raises, in the order it checks the fields. -/
def mkValidDateTime (y mo d h mi s : Nat) : Except String DateTime :=
  if y = 0 then .error ("year 0 is out of range")
  else if mo < 1 || 12 < mo then .error ("month must be in 1..12")
  else if d < 1 || daysInMonth y mo < d then .error ("day is out of range for month")
  else if 23 < h then .error ("hour must be in 0..23")
  else if 59 < mi then .error ("minute must be in 0..59")
  else if 59 < s then .error ("second must be in 0..59")
  else .ok ⟨y, mo, d, h, mi, s⟩

/-- `datetime.fromisoformat` (Python 3.8/3.9) on the string shapes reachable
from this library's codec: the date part must be exactly `YYYY-MM-DD` with
literal hyphens; an optional time part follows one arbitrary separator
character and must be `HH`, `HH:MM` or `HH:MM:SS` with literal colons.
Fractional seconds and timezone suffixes cannot occur here because the
regex match is at most 19 characters and normalisation preserves length.
A missing time part means midnight.  Errors carry the `ValueError` message. -/
def fromisoformat (l : List Char) : Except String DateTime :=
  match l with
  | y1 :: y2 :: y3 :: y4 :: '-' :: m1 :: m2 :: '-' :: d1 :: d2 :: rest =>
    if y1.isDigit && y2.isDigit && y3.isDigit && y4.isDigit
        && m1.isDigit && m2.isDigit && d1.isDigit && d2.isDigit then
      match rest with
      | [] => mkValidDateTime (val4 y1 y2 y3 y4) (val2 m1 m2) (val2 d1 d2) 0 0 0
      | _sep :: t =>
        match t with
        | [h1, h2] =>
          if h1.isDigit && h2.isDigit then
            mkValidDateTime (val4 y1 y2 y3 y4) (val2 m1 m2) (val2 d1 d2) (val2 h1 h2) 0 0
          else .error (invalidIsoMsg l)
        | [h1, h2, ':', mi1, mi2] =>
          if h1.isDigit && h2.isDigit && mi1.isDigit && mi2.isDigit then
            mkValidDateTime (val4 y1 y2 y3 y4) (val2 m1 m2) (val2 d1 d2)
              (val2 h1 h2) (val2 mi1 mi2) 0
          else .error (invalidIsoMsg l)
        | [h1, h2, ':', mi1, mi2, ':', s1, s2] =>
          if h1.isDigit && h2.isDigit && mi1.isDigit && mi2.isDigit
              && s1.isDigit && s2.isDigit then
            mkValidDateTime (val4 y1 y2 y3 y4) (val2 m1 m2) (val2 d1 d2)
              (val2 h1 h2) (val2 mi1 mi2) (val2 s1 s2)
          else .error (invalidIsoMsg l)
        | _ => .error (invalidIsoMsg l)
    else .error (invalidIsoMsg l)
  | _ => .error (invalidIsoMsg l)

/-- `S3TimestampedArtefact._extract_iso_timestamp_from_string`: find the
leftmost match of the timestamp regex, normalise the time separators to
colons, and parse with `datetime.fromisoformat`.  `.ok none` models the
Python `None` return (no match anywhere); `.error` models a `ValueError`
escaping from `fromisoformat`. -/
def extract_iso_timestamp (s : List Char) : Except String (Option DateTime) :=
  match findTs s with
  | some m => (fromisoformat (subNorm m)).map some
  | none => .ok none

/-- A match of `\.(\w+)$` starting at the head of the list: a dot followed
by a non-empty run of word characters reaching the end of the string, or
the position just before a single string-final newline (Python's `$`
matches there too).  Returns the captured group. -/
def matchExtAt : List Char → Option (List Char)
  | c :: rest =>
    if c = '.' then
      if !(rest.takeWhile isWordChar).isEmpty
          && ((rest.dropWhile isWordChar).isEmpty
            || rest.dropWhile isWordChar == ['\n']) then
        some (rest.takeWhile isWordChar)
      else none
    else none
  | [] => none

/-- `re.findall(r"\.(\w+)$", s)[0]`: the leftmost (in fact unique) match. -/
def findExt : List Char → Option (List Char)
  | [] => none
  | c :: cs =>
    match matchExtAt (c :: cs) with
    | some w => some w
    | none => findExt cs

/-- Python `str.lower`, ASCII range. -/
def pyLower (c : Char) : Char :=
  if c == 'A' then 'a' else if c == 'B' then 'b' else if c == 'C' then 'c'
  else if c == 'D' then 'd' else if c == 'E' then 'e' else if c == 'F' then 'f'
  else if c == 'G' then 'g' else if c == 'H' then 'h' else if c == 'I' then 'i'
  else if c == 'J' then 'j' else if c == 'K' then 'k' else if c == 'L' then 'l'
  else if c == 'M' then 'm' else if c == 'N' then 'n' else if c == 'O' then 'o'
  else if c == 'P' then 'p' else if c == 'Q' then 'q' else if c == 'R' then 'r'
  else if c == 'S' then 's' else if c == 'T' then 't' else if c == 'U' then 'u'
  else if c == 'V' then 'v' else if c == 'W' then 'w' else if c == 'X' then 'x'
  else if c == 'Y' then 'y' else if c == 'Z' then 'z' else c

/-- The fixed extension table `FILE_FORMAT_EXTENSIONS` (identical in
`artefacts.py` and `datasets.py`). -/
def FILE_FORMAT_EXTENSIONS : List (List Char × String) :=
  [(['c', 's', 'v'], "CSV"),
   (['p', 'a', 'r', 'q', 'u', 'e', 't'], "PARQUET"),
   (['p', 'k', 'l'], "PICKLE")]

/-- `S3TimestampedArtefact._extract_file_format_from_string`: match
`\.(\w+)$`, lower-case the captured group and look it up in the table. -/
def extract_file_format (s : List Char) : Option String :=
  match findExt s with
  | some w => FILE_FORMAT_EXTENSIONS.lookup (w.map pyLower)
  | none => none

/-- ASCII rendering of a single decimal digit. -/
def digitChar : Nat → Char
  | 0 => '0' | 1 => '1' | 2 => '2' | 3 => '3' | 4 => '4'
  | 5 => '5' | 6 => '6' | 7 => '7' | 8 => '8' | _ => '9'

/-- Zero-padded two-digit rendering (how `datetime.isoformat` prints
month, day, hour, minute and second). -/
def pad2 (n : Nat) : List Char := [digitChar (n / 10 % 10), digitChar (n % 10)]

/-- Zero-padded four-digit rendering of the year. -/
def pad4 (n : Nat) : List Char :=
  [digitChar (n / 1000 % 10), digitChar (n / 100 % 10),
   digitChar (n / 10 % 10), digitChar (n % 10)]

/-- `ref_date.isoformat(sep="T", timespec="seconds")`:
`YYYY-MM-DDTHH:MM:SS`, 19 characters. -/
def isoformatSec (t : DateTime) : List Char :=
  pad4 t.year ++ '-' :: pad2 t.month ++ '-' :: pad2 t.day
    ++ 'T' :: pad2 t.hour ++ ':' :: pad2 t.minute ++ ':' :: pad2 t.second

/-- `make_timestamped_filename(prefix, ref_date, file_format)` (identical in
`artefacts.py` and `s3.py`); the first argument is called `prefix` in the
source. -/
def make_timestamped_filename (stem : List Char) (ref_date : DateTime)
    (file_format : List Char) : List Char :=
  stem ++ '_' :: isoformatSec ref_date ++ '.' :: file_format

/-- The fields a successfully constructed `S3TimestampedArtefact` stores. -/
structure S3TimestampedArtefact where
  bucket : String
  s3_obj_key : List Char
  s3_etag : String
  datetime : DateTime
  file_format : String
deriving DecidableEq, Repr

/-- `S3TimestampedArtefact.__init__`: extract the timestamp from the key
(a `ValueError` escaping `fromisoformat` propagates); report
`"... has no parsable timestamp."` when the regex finds no match; only
then extract the file format, reporting `"... has no supported file
format."` on failure; on success store both derived fields alongside the
raw bucket/key/etag triple. -/
def mkArtefact (bucket : String) (s3_obj_key : List Char) (s3_etag : String) :
    Except String S3TimestampedArtefact :=
  match extract_iso_timestamp s3_obj_key with
  | .error e => .error e
  | .ok none => .error (String.mk s3_obj_key ++ (" has no parsable timestamp." : String))
  | .ok (some dt) =>
    match extract_file_format s3_obj_key with
    | none => .error (String.mk s3_obj_key ++ (" has no supported file format." : String))
    | some ff => .ok ⟨bucket, s3_obj_key, s3_etag, dt, ff⟩

/-- `datetime.__lt__`: lexicographic comparison of the fields. -/
def dtLtb (a b : DateTime) : Bool :=
  Nat.blt a.year b.year ||
  (a.year == b.year && (Nat.blt a.month b.month ||
  (a.month == b.month && (Nat.blt a.day b.day ||
  (a.day == b.day && (Nat.blt a.hour b.hour ||
  (a.hour == b.hour && (Nat.blt a.minute b.minute ||
  (a.minute == b.minute && Nat.blt a.second b.second)))))))))

/-- `S3TimestampedArtefact.__lt__`: compare by timestamp only. -/
def artLtb (a b : S3TimestampedArtefact) : Bool := dtLtb a.datetime b.datetime

/-- The "not greater" order `sorted` arranges ascendingly and stably:
`a` may precede `b` exactly when `not (b < a)`. -/
def artLe (a b : S3TimestampedArtefact) : Bool := !(artLtb b a)

/-- One entry of the backend listing: `{"Key": ..., "ETag": ...}`. -/
structure S3Obj where
  key : List Char
  etag : String
deriving DecidableEq, Repr

/-- Python exceptions surfaced by the resolver, by type and message. -/
inductive PyErr where
  | valueError (msg : String)
  | runtimeError (msg : String)
deriving DecidableEq, Repr

/-- Normalise a folder so that it ends in `/` unless it is empty
(`folder_std` in the source). -/
def folderStd (folder : List Char) : List Char :=
  if folder.getLast? == some '/' || folder.isEmpty then folder else folder ++ ['/']

/-- The scan loop of the resolver: build an artefact descriptor from each
listed object, silently discarding any whose construction raises
`ValueError`, and keep those whose decoded format equals the requested
one. -/
def validArtefacts (bucket : String) (tag : String) (objs : List S3Obj) :
    List S3TimestampedArtefact :=
  objs.filterMap (fun o =>
    match mkArtefact bucket o.key o.etag with
    | .ok a => if a.file_format == tag then some a else none
    | .error _ => none)

/-- `find_latest_artefact_on_s3` in `artefacts.py` (and its identical twin
`_find_latest_artefact_on_s3` in `datasets.py`).  The backend call
`s3_client.list_objects` is passed in as `listing`; `.error` models the
call raising.  `sorted(s3_artefacts)[-1]` is a stable ascending sort by
`__lt__` followed by taking the last element; on an empty list the
`IndexError` is caught and reported as the "no valid artefacts"
`RuntimeError`, while a failure of the listing call is caught by the
generic handler and reported as the "failed to download" `RuntimeError`. -/
def find_latest_artefact_on_s3 (file_format : String) (bucket : String)
    (folder : List Char) (listing : Except String (List S3Obj)) :
    Except PyErr S3TimestampedArtefact :=
  match FILE_FORMAT_EXTENSIONS.lookup file_format.data with
  | none => .error (.valueError (file_format ++ (" is not a supported file type." : String)))
  | some tag =>
    match listing with
    | .error _ =>
      .error (.runtimeError (("failed to download dataset from s3://" : String)
        ++ bucket ++ ("/" : String) ++ String.mk (folderStd folder)))
    | .ok objs =>
      match ((validArtefacts bucket tag objs).mergeSort artLe).getLast? with
      | some a => .ok a
      | none =>
        .error (.runtimeError (("no valid artefacts found in s3://" : String)
          ++ bucket ++ ("/" : String) ++ String.mk (folderStd folder)))

/-! ### Order properties of the timestamp comparison -/

theorem dtLtb_iff (a b : DateTime) : dtLtb a b = true ↔
    (a.year < b.year ∨ (a.year = b.year ∧ (a.month < b.month ∨ (a.month = b.month ∧
    (a.day < b.day ∨ (a.day = b.day ∧ (a.hour < b.hour ∨ (a.hour = b.hour ∧
    (a.minute < b.minute ∨ (a.minute = b.minute ∧ a.second < b.second)))))))))) := by
  simp [dtLtb]

theorem artLe_iff (a b : S3TimestampedArtefact) :
    artLe a b = true ↔ ¬ (dtLtb b.datetime a.datetime = true) := by
  simp [artLe, artLtb]

theorem artLe_refl (a : S3TimestampedArtefact) : artLe a a := by
  rw [artLe_iff, dtLtb_iff]
  omega

theorem artLe_trans (a b c : S3TimestampedArtefact) :
    artLe a b → artLe b c → artLe a c := by
  rw [artLe_iff, artLe_iff, artLe_iff, dtLtb_iff, dtLtb_iff, dtLtb_iff]
  omega

theorem artLe_total (a b : S3TimestampedArtefact) : artLe a b || artLe b a := by
  rw [Bool.or_eq_true, artLe_iff, artLe_iff, dtLtb_iff, dtLtb_iff]
  omega

/-- In a list that is pairwise related by a reflexive relation, every
element is related to the last element. -/
theorem rel_getLast_of_pairwise {α : Type} {R : α → α → Prop} (hrefl : ∀ a, R a a) :
    ∀ (l : List α) (h : l ≠ []), l.Pairwise R → ∀ x ∈ l, R x (l.getLast h)
  | [a], _, _, x, hx => by
    rcases List.mem_singleton.1 hx with rfl
    exact hrefl x
  | a :: b :: t, _, hp, x, hx => by
    rw [List.getLast_cons (List.cons_ne_nil b t)]
    rcases List.mem_cons.1 hx with rfl | hx
    · exact (List.pairwise_cons.1 hp).1 _ (List.getLast_mem (List.cons_ne_nil b t))
    · exact rel_getLast_of_pairwise hrefl (b :: t) (List.cons_ne_nil b t)
        (List.pairwise_cons.1 hp).2 x hx

/-- What `sorted(s3_artefacts)[-1]` produces on a non-empty list: an element
of the list, maximal by timestamp, and — by stability of the sort — the
last element of the list among those sharing the maximal timestamp. -/
theorem getLast?_mergeSort_spec (V : List S3TimestampedArtefact) (hne : V ≠ []) :
    ∃ a, (V.mergeSort artLe).getLast? = some a ∧ a ∈ V
      ∧ (∀ b ∈ V, dtLtb a.datetime b.datetime = false)
      ∧ (V.filter (fun b => b.datetime == a.datetime)).getLast? = some a := by
  have hSne : V.mergeSort artLe ≠ [] := by
    intro h0
    apply hne
    apply List.eq_nil_of_length_eq_zero
    have hl := congrArg List.length h0
    simpa using hl
  refine ⟨(V.mergeSort artLe).getLast hSne, List.getLast?_eq_getLast _ hSne, ?_, ?_, ?_⟩
  · exact List.mem_mergeSort.1 (List.getLast_mem hSne)
  · intro b hb
    have hbS : b ∈ V.mergeSort artLe := List.mem_mergeSort.2 hb
    have hp : (V.mergeSort artLe).Pairwise (fun x y => artLe x y = true) :=
      List.sorted_mergeSort artLe_trans artLe_total V
    have hle := rel_getLast_of_pairwise artLe_refl (V.mergeSort artLe) hSne hp b hbS
    simpa [artLe, artLtb] using hle
  · have hpa : ((V.mergeSort artLe).getLast hSne).datetime ==
        ((V.mergeSort artLe).getLast hSne).datetime := beq_self_eq_true _
    have hfne : (V.mergeSort artLe).filter
        (fun b => b.datetime == ((V.mergeSort artLe).getLast hSne).datetime) ≠ [] :=
      List.ne_nil_of_mem (List.mem_filter.2 ⟨List.getLast_mem hSne, hpa⟩)
    have h1 : ((V.mergeSort artLe).filter
        (fun b => b.datetime == ((V.mergeSort artLe).getLast hSne).datetime)).getLast?
        = some ((V.mergeSort artLe).getLast hSne) :=
      (List.getLast?_eq_getLast _ hfne).trans
        (congrArg some (List.getLast_filter_of_pos hSne hpa))
    have hpw : (V.filter
        (fun b => b.datetime == ((V.mergeSort artLe).getLast hSne).datetime)).Pairwise
        (fun x y => artLe x y = true) := by
      apply List.pairwise_of_forall_mem_list
      intro x hx y hy
      have hxp := (List.mem_filter.1 hx).2
      have hyp := (List.mem_filter.1 hy).2
      have hxy : x.datetime = y.datetime :=
        (beq_iff_eq.1 hxp).trans (beq_iff_eq.1 hyp).symm
      rw [artLe_iff, dtLtb_iff, hxy]
      omega
    have hsub : List.Sublist (V.filter
        (fun b => b.datetime == ((V.mergeSort artLe).getLast hSne).datetime))
        (V.mergeSort artLe) :=
      List.sublist_mergeSort artLe_trans artLe_total hpw (List.filter_sublist V)
    have hidem : List.filter
        (fun b => b.datetime == ((V.mergeSort artLe).getLast hSne).datetime)
        (V.filter (fun b => b.datetime == ((V.mergeSort artLe).getLast hSne).datetime))
        = V.filter (fun b => b.datetime == ((V.mergeSort artLe).getLast hSne).datetime) :=
      List.filter_eq_self.2 (fun a ha => (List.mem_filter.1 ha).2)
    have hsub2 : List.Sublist (V.filter
        (fun b => b.datetime == ((V.mergeSort artLe).getLast hSne).datetime))
        ((V.mergeSort artLe).filter
        (fun b => b.datetime == ((V.mergeSort artLe).getLast hSne).datetime)) := by
      rw [← hidem]
      exact hsub.filter _
    have hlen : (V.filter
        (fun b => b.datetime == ((V.mergeSort artLe).getLast hSne).datetime)).length
        = ((V.mergeSort artLe).filter
        (fun b => b.datetime == ((V.mergeSort artLe).getLast hSne).datetime)).length :=
      ((List.mergeSort_perm V artLe).filter _).length_eq.symm
    rw [hsub2.eq_of_length hlen]
    exact h1

/-- C1: for every listing mixing valid and invalid keys, the resolver
returns exactly the single descriptor with the maximum timestamp among the
valid entries whose decoded format equals the requested one, never
propagating a validation failure from an invalid entry; among entries
sharing the maximal timestamp it returns the one the listing placed last
(stable sort, then take the last element). -/
theorem find_latest_artefact_returns_latest_valid
    (file_format tag bucket : String) (folder : List Char) (objs : List S3Obj)
    (hlook : FILE_FORMAT_EXTENSIONS.lookup file_format.data = some tag)
    (hne : validArtefacts bucket tag objs ≠ []) :
    ∃ a, find_latest_artefact_on_s3 file_format bucket folder (.ok objs) = .ok a
      ∧ a ∈ validArtefacts bucket tag objs
      ∧ (∀ b ∈ validArtefacts bucket tag objs, dtLtb a.datetime b.datetime = false)
      ∧ ((validArtefacts bucket tag objs).filter
          (fun b => b.datetime == a.datetime)).getLast? = some a := by
  obtain ⟨a, hlast, hmem, hmax, htie⟩ :=
    getLast?_mergeSort_spec (validArtefacts bucket tag objs) hne
  refine ⟨a, ?_, hmem, hmax, htie⟩
  simp only [find_latest_artefact_on_s3, hlook, hlast]

/-- Witness for C1: a concrete listing with one malformed key and three
valid CSV keys; the resolver returns the `2020-07-08T01:00:00` artefact. -/
theorem find_latest_artefact_returns_latest_valid_witness :
    ∃ a, find_latest_artefact_on_s3 "csv" "my-bucket" ("datasets".data)
        (.ok [⟨("datasets/my_data_2020-06-08T00:00:00.csv".data), "e1"⟩,
              ⟨("datasets/junk.txt".data), "e2"⟩,
              ⟨("datasets/my_data_2020-07-08T01:00:00.csv".data), "e3"⟩,
              ⟨("datasets/my_data_2020-05-08T00:15:00.csv".data), "e4"⟩]) = .ok a
      ∧ a ∈ validArtefacts "my-bucket" "CSV"
          [⟨("datasets/my_data_2020-06-08T00:00:00.csv".data), "e1"⟩,
           ⟨("datasets/junk.txt".data), "e2"⟩,
           ⟨("datasets/my_data_2020-07-08T01:00:00.csv".data), "e3"⟩,
           ⟨("datasets/my_data_2020-05-08T00:15:00.csv".data), "e4"⟩]
      ∧ (∀ b ∈ validArtefacts "my-bucket" "CSV"
          [⟨("datasets/my_data_2020-06-08T00:00:00.csv".data), "e1"⟩,
           ⟨("datasets/junk.txt".data), "e2"⟩,
           ⟨("datasets/my_data_2020-07-08T01:00:00.csv".data), "e3"⟩,
           ⟨("datasets/my_data_2020-05-08T00:15:00.csv".data), "e4"⟩],
          dtLtb a.datetime b.datetime = false)
      ∧ ((validArtefacts "my-bucket" "CSV"
          [⟨("datasets/my_data_2020-06-08T00:00:00.csv".data), "e1"⟩,
           ⟨("datasets/junk.txt".data), "e2"⟩,
           ⟨("datasets/my_data_2020-07-08T01:00:00.csv".data), "e3"⟩,
           ⟨("datasets/my_data_2020-05-08T00:15:00.csv".data), "e4"⟩]).filter
          (fun b => b.datetime == a.datetime)).getLast? = some a :=
  find_latest_artefact_returns_latest_valid "csv" "CSV" "my-bucket" ("datasets".data)
    [⟨("datasets/my_data_2020-06-08T00:00:00.csv".data), "e1"⟩,
     ⟨("datasets/junk.txt".data), "e2"⟩,
     ⟨("datasets/my_data_2020-07-08T01:00:00.csv".data), "e3"⟩,
     ⟨("datasets/my_data_2020-05-08T00:15:00.csv".data), "e4"⟩]
    (by decide) (by decide)

/-- The resolver's "no valid artefacts" message. -/
def noValidMsg (bucket : String) (folder : List Char) : String :=
  ("no valid artefacts found in s3://" : String) ++ bucket ++ ("/" : String)
    ++ String.mk (folderStd folder)

/-- The resolver's "failed to download" message. -/
def downloadMsg (bucket : String) (folder : List Char) : String :=
  ("failed to download dataset from s3://" : String) ++ bucket ++ ("/" : String)
    ++ String.mk (folderStd folder)

theorem noValidMsg_ne_downloadMsg (bucket : String) (folder : List Char) :
    noValidMsg bucket folder ≠ downloadMsg bucket folder := by
  intro h
  have h2 := congrArg String.length h
  simp only [noValidMsg, downloadMsg, String.length_append] at h2
  have e1 : ("no valid artefacts found in s3://" : String).length = 33 := rfl
  have e2 : ("failed to download dataset from s3://" : String).length = 37 := rfl
  rw [e1, e2] at h2
  omega

theorem mergeSort_getLast?_eq_none_iff (V : List S3TimestampedArtefact) :
    (V.mergeSort artLe).getLast? = none ↔ V = [] := by
  rw [List.getLast?_eq_none_iff]
  constructor
  · intro h
    apply List.eq_nil_of_length_eq_zero
    have hl := congrArg List.length h
    simpa using hl
  · intro h
    rw [h, List.mergeSort_nil]

/-- C4: with a supported requested format, the resolver fails with the
"no valid artefacts found" `RuntimeError` naming the bucket and normalised
folder exactly when the listing succeeded but yields no valid
format-matching descriptor, and with the distinct "failed to download"
`RuntimeError` exactly when the listing call itself failed; the two error
values are never equal, so callers can distinguish them. -/
theorem resolver_error_kinds
    (file_format tag bucket : String) (folder : List Char)
    (listing : Except String (List S3Obj))
    (hlook : FILE_FORMAT_EXTENSIONS.lookup file_format.data = some tag) :
    (find_latest_artefact_on_s3 file_format bucket folder listing
        = .error (.runtimeError (noValidMsg bucket folder))
      ↔ ∃ objs, listing = .ok objs ∧ validArtefacts bucket tag objs = [])
    ∧ (find_latest_artefact_on_s3 file_format bucket folder listing
        = .error (.runtimeError (downloadMsg bucket folder))
      ↔ ∃ e, listing = .error e)
    ∧ PyErr.runtimeError (noValidMsg bucket folder)
        ≠ PyErr.runtimeError (downloadMsg bucket folder) := by
  have hne : PyErr.runtimeError (noValidMsg bucket folder)
      ≠ PyErr.runtimeError (downloadMsg bucket folder) := by
    intro h
    exact noValidMsg_ne_downloadMsg bucket folder (by injection h)
  refine ⟨?_, ?_, hne⟩
  · constructor
    · intro h
      cases listing with
      | error e =>
        exfalso
        simp only [find_latest_artefact_on_s3, hlook] at h
        exact hne (Except.error.inj h).symm
      | ok objs =>
        refine ⟨objs, rfl, ?_⟩
        simp only [find_latest_artefact_on_s3, hlook] at h
        rcases hcase : ((validArtefacts bucket tag objs).mergeSort artLe).getLast? with
          _ | a
        · exact (mergeSort_getLast?_eq_none_iff _).1 hcase
        · rw [hcase] at h
          exact absurd h (by simp)
    · rintro ⟨objs, rfl, hempty⟩
      simp only [find_latest_artefact_on_s3, hlook, hempty, List.mergeSort_nil,
        List.getLast?_nil, noValidMsg]
  · constructor
    · intro h
      cases listing with
      | error e => exact ⟨e, rfl⟩
      | ok objs =>
        simp only [find_latest_artefact_on_s3, hlook] at h
        rcases hcase : ((validArtefacts bucket tag objs).mergeSort artLe).getLast? with
          _ | a
        · rw [hcase] at h
          exact absurd (Except.error.inj h) hne
        · rw [hcase] at h
          exact absurd h (by simp)
    · rintro ⟨e, rfl⟩
      simp only [find_latest_artefact_on_s3, hlook, downloadMsg]

/-- Witness for C4: a failed listing yields the "failed to download"
error, and an empty listing yields the "no valid artefacts" error. -/
theorem resolver_error_kinds_witness :
    find_latest_artefact_on_s3 "csv" "my-bucket" ("datasets".data) (.error "boom")
      = .error (.runtimeError (downloadMsg "my-bucket" ("datasets".data)))
    ∧ find_latest_artefact_on_s3 "csv" "my-bucket" ("datasets".data) (.ok [])
      = .error (.runtimeError (noValidMsg "my-bucket" ("datasets".data))) :=
  ⟨(resolver_error_kinds "csv" "CSV" "my-bucket" ("datasets".data)
      (.error "boom") (by decide)).2.1.mpr ⟨"boom", rfl⟩,
   (resolver_error_kinds "csv" "CSV" "my-bucket" ("datasets".data)
      (.ok []) (by decide)).1.mpr ⟨[], rfl, rfl⟩⟩

/-- C7: descriptor construction reports "no parsable timestamp" whenever
timestamp decoding returns no match (regardless of the format — the
format check runs only afterwards, so this is the error seen when both
decodes fail), reports "no supported file format" when the timestamp
decode succeeds but the format decode fails, and on success stores the
derived timestamp and format alongside the raw bucket/key/etag triple. -/
theorem artefact_construction_cases (bucket : String) (key : List Char) (etag : String) :
    (extract_iso_timestamp key = .ok none →
      mkArtefact bucket key etag
        = .error (String.mk key ++ (" has no parsable timestamp." : String)))
    ∧ (∀ t, extract_iso_timestamp key = .ok (some t) → extract_file_format key = none →
      mkArtefact bucket key etag
        = .error (String.mk key ++ (" has no supported file format." : String)))
    ∧ (∀ t ff, extract_iso_timestamp key = .ok (some t) →
        extract_file_format key = some ff →
        mkArtefact bucket key etag = .ok ⟨bucket, key, etag, t, ff⟩) := by
  refine ⟨?_, ?_, ?_⟩ <;> intros <;> simp only [mkArtefact, *]

/-- Witness for C7: a key with neither timestamp nor supported format
fails with the timestamp error, one with a timestamp but no extension
fails with the format error, and a fully valid key constructs. -/
theorem artefact_construction_cases_witness :
    mkArtefact "my-bucket" ("this_is_not_a_dataset_key".data) "e"
      = .error (String.mk ("this_is_not_a_dataset_key".data)
          ++ (" has no parsable timestamp." : String))
    ∧ mkArtefact "my-bucket" ("my/data_2021-12-12T13:30:30".data) "e"
      = .error (String.mk ("my/data_2021-12-12T13:30:30".data)
          ++ (" has no supported file format." : String))
    ∧ mkArtefact "my-bucket" ("my_data_2021-12-12T13:30:30.csv".data) "e"
      = .ok ⟨"my-bucket", ("my_data_2021-12-12T13:30:30.csv".data), "e",
          ⟨2021, 12, 12, 13, 30, 30⟩, "CSV"⟩ :=
  ⟨(artefact_construction_cases "my-bucket" ("this_is_not_a_dataset_key".data) "e").1
      (by decide),
   (artefact_construction_cases "my-bucket" ("my/data_2021-12-12T13:30:30".data) "e").2.1
      ⟨2021, 12, 12, 13, 30, 30⟩ (by decide) (by decide),
   (artefact_construction_cases "my-bucket" ("my_data_2021-12-12T13:30:30.csv".data) "e").2.2
      ⟨2021, 12, 12, 13, 30, 30⟩ "CSV" (by decide) (by decide)⟩

/-- C10: a key whose leftmost pattern match is not a valid calendar date
(e.g. one containing `2021-13-45`) makes descriptor construction fail with
the `ValueError` coming out of ISO-8601 parsing — a message different from
"has no parsable timestamp" — and in general any parse error of the
normalised leftmost match propagates out of the constructor unchanged. -/
theorem out_of_range_timestamp_parse_error :
    extract_iso_timestamp ("model_2021-13-45.csv".data)
      = .error ("month must be in 1..12")
    ∧ mkArtefact "my-bucket" ("model_2021-13-45.csv".data) "e"
      = .error ("month must be in 1..12")
    ∧ ("month must be in 1..12" : String)
      ≠ String.mk ("model_2021-13-45.csv".data)
          ++ (" has no parsable timestamp." : String)
    ∧ (∀ (bucket : String) (key : List Char) (etag : String) (m : List Char) (e : String),
        findTs key = some m → fromisoformat (subNorm m) = .error e →
        mkArtefact bucket key etag = .error e) := by
  refine ⟨by decide, by decide, by decide, ?_⟩
  intro bucket key etag m e h1 h2
  simp only [mkArtefact, extract_iso_timestamp, h1, h2, Except.map]

/-- Witness for C10's universal part, instantiated at the concrete
out-of-range key. -/
theorem out_of_range_timestamp_parse_error_witness :
    mkArtefact "b" ("model_2021-13-45.csv".data) "t"
      = .error ("month must be in 1..12") :=
  out_of_range_timestamp_parse_error.2.2.2 "b" ("model_2021-13-45.csv".data) "t"
    ("2021-13-45".data) ("month must be in 1..12") (by decide) (by decide)

/-! ### Leftmost-match characterisation of the timestamp scanner -/

/-- One of the two regex alternatives matches at position `i` of `l`. -/
def tsMatchAt (l : List Char) (i : Nat) : Bool :=
  matchesPat fullPat (l.drop i) || matchesPat datePat (l.drop i)

/-- The substring matched when a match starts at the head of `l`: the full
19-character alternative is preferred over the 10-character bare date. -/
def matchAtHead (l : List Char) : List Char :=
  if matchesPat fullPat l then l.take 19 else l.take 10

theorem findTs_cons (c : Char) (cs : List Char) :
    findTs (c :: cs) =
      if matchesPat fullPat (c :: cs) then some ((c :: cs).take 19)
      else if matchesPat datePat (c :: cs) then some ((c :: cs).take 10)
      else findTs cs := rfl

theorem findTs_eq_none_iff (l : List Char) :
    findTs l = none ↔ ∀ i, tsMatchAt l i = false := by
  induction l with
  | nil =>
    constructor
    · intro _ i
      rw [tsMatchAt, List.drop_nil]
      decide
    · intro _
      rfl
  | cons c cs ih =>
    rw [findTs_cons]
    constructor
    · intro h i
      have hA : matchesPat fullPat (c :: cs) = false := by
        by_contra hA'
        rw [Bool.not_eq_false] at hA'
        simp [hA'] at h
      have hB : matchesPat datePat (c :: cs) = false := by
        by_contra hB'
        rw [Bool.not_eq_false] at hB'
        simp [hA, hB'] at h
      have hrec : findTs cs = none := by simpa [hA, hB] using h
      match i with
      | 0 => simp [tsMatchAt, hA, hB]
      | i + 1 => simpa [tsMatchAt, List.drop_succ_cons] using ih.1 hrec i
    · intro h
      have h0 := h 0
      rw [tsMatchAt, List.drop_zero, Bool.or_eq_false_iff] at h0
      simp only [h0.1, h0.2, if_false, Bool.false_eq_true]
      exact ih.2 (fun i => by simpa [tsMatchAt, List.drop_succ_cons] using h (i + 1))

theorem findTs_leftmost :
    ∀ (l : List Char) (i : Nat), tsMatchAt l i = true →
    (∀ j, j < i → tsMatchAt l j = false) →
    findTs l = some (matchAtHead (l.drop i))
  | [], i, hi, _ => by
    rw [tsMatchAt, List.drop_nil] at hi
    exact absurd hi (by decide)
  | c :: cs, 0, hi, _ => by
    rw [tsMatchAt, List.drop_zero, Bool.or_eq_true] at hi
    rw [List.drop_zero, findTs_cons, matchAtHead]
    rcases hA : matchesPat fullPat (c :: cs) with _ | _
    · rcases hi with hi | hi
      · rw [hA] at hi
        exact absurd hi (by decide)
      · simp [hi]
    · simp
  | c :: cs, i + 1, hi, hmin => by
    have h0 := hmin 0 (by omega)
    rw [tsMatchAt, List.drop_zero, Bool.or_eq_false_iff] at h0
    rw [findTs_cons]
    simp only [h0.1, h0.2, if_false, Bool.false_eq_true, List.drop_succ_cons]
    exact findTs_leftmost cs i
      (by simpa [tsMatchAt, List.drop_succ_cons] using hi)
      (fun j hj => by
        simpa [tsMatchAt, List.drop_succ_cons] using hmin (j + 1) (by omega))

theorem extract_eq_ok_none_iff (l : List Char) :
    extract_iso_timestamp l = .ok none ↔ ∀ i, tsMatchAt l i = false := by
  rw [← findTs_eq_none_iff]
  cases hf : findTs l with
  | none => simp [extract_iso_timestamp, hf]
  | some m =>
    simp only [extract_iso_timestamp, hf]
    cases hfi : fromisoformat (subNorm m) <;> simp [Except.map]

/-! ### Digit rendering and validation lemmas -/

theorem isDigit_digitChar : ∀ n : Nat, (digitChar n).isDigit = true := by
  intro n
  rcases n with _ | _ | _ | _ | _ | _ | _ | _ | _ | n <;> rfl

theorem isSepST_digitChar : ∀ n : Nat, isSepST (digitChar n) = false := by
  intro n
  rcases n with _ | _ | _ | _ | _ | _ | _ | _ | _ | n <;> rfl

theorem digitVal_digitChar (n : Nat) (h : n < 10) : digitVal (digitChar n) = n := by
  interval_cases n <;> rfl

theorem isSepST_dash : isSepST '-' = false := by decide

theorem isNonWord_dash : isNonWord '-' = true := by decide

theorem isNonWord_colon : isNonWord ':' = true := by decide

theorem isSepST_T : isSepST 'T' = true := by decide

theorem val2_pad (n : Nat) (h : n < 100) :
    val2 (digitChar (n / 10 % 10)) (digitChar (n % 10)) = n := by
  rw [val2, digitVal_digitChar _ (by omega), digitVal_digitChar _ (by omega)]
  omega

theorem val4_pad (n : Nat) (h : n < 10000) :
    val4 (digitChar (n / 1000 % 10)) (digitChar (n / 100 % 10))
      (digitChar (n / 10 % 10)) (digitChar (n % 10)) = n := by
  rw [val4, digitVal_digitChar _ (by omega), digitVal_digitChar _ (by omega),
    digitVal_digitChar _ (by omega), digitVal_digitChar _ (by omega)]
  omega

/-- The ranges Python's `datetime` constructor accepts. -/
def validDT (t : DateTime) : Prop :=
  1 ≤ t.year ∧ t.year ≤ 9999 ∧ 1 ≤ t.month ∧ t.month ≤ 12 ∧ 1 ≤ t.day
    ∧ t.day ≤ daysInMonth t.year t.month ∧ t.hour ≤ 23 ∧ t.minute ≤ 59 ∧ t.second ≤ 59

instance (t : DateTime) : Decidable (validDT t) := by
  unfold validDT
  infer_instance

theorem validDT_mk (y mo d h mi s : Nat) :
    validDT ⟨y, mo, d, h, mi, s⟩ ↔
      (1 ≤ y ∧ y ≤ 9999 ∧ 1 ≤ mo ∧ mo ≤ 12 ∧ 1 ≤ d ∧ d ≤ daysInMonth y mo
        ∧ h ≤ 23 ∧ mi ≤ 59 ∧ s ≤ 59) :=
  Iff.rfl

theorem mkValidDateTime_ok (y mo d h mi s : Nat)
    (hv : validDT ⟨y, mo, d, h, mi, s⟩) :
    mkValidDateTime y mo d h mi s = .ok ⟨y, mo, d, h, mi, s⟩ := by
  rw [validDT_mk] at hv
  obtain ⟨h1, h2, h3, h4, h5, h6, h7, h8, h9⟩ := hv
  have e0 : ¬(y = 0) := by omega
  have e1 : ¬(mo < 1 ∨ 12 < mo) := by omega
  have e2 : ¬(d < 1 ∨ daysInMonth y mo < d) := by
    simp only [daysInMonth] at h6 ⊢
    omega
  have e3 : ¬(23 < h) := by omega
  have e4 : ¬(59 < mi) := by omega
  have e5 : ¬(59 < s) := by omega
  simp only [mkValidDateTime, e0, if_false]
  rw [if_neg (by simpa using e1), if_neg (by simpa using e2), if_neg (by simpa using e3),
    if_neg (by simpa using e4), if_neg (by simpa using e5)]

theorem daysInMonth_le (y m : Nat) : daysInMonth y m ≤ 31 := by
  unfold daysInMonth
  split
  · split <;> omega
  · split <;> omega

theorem fromisoformat_date (y mo d : Nat) (hv : validDT ⟨y, mo, d, 0, 0, 0⟩) :
    fromisoformat (pad4 y ++ '-' :: pad2 mo ++ '-' :: pad2 d) = .ok ⟨y, mo, d, 0, 0, 0⟩ := by
  obtain ⟨h1, h2, h3, h4, h5, h6, h7, h8, h9⟩ := (validDT_mk y mo d 0 0 0).1 hv
  have hdm := daysInMonth_le y mo
  simp only [pad4, pad2, List.cons_append, List.nil_append, fromisoformat,
    isDigit_digitChar, Bool.and_self, if_true]
  rw [val4_pad y (by omega), val2_pad mo (by omega), val2_pad d (by omega)]
  exact mkValidDateTime_ok y mo d 0 0 0
    ((validDT_mk y mo d 0 0 0).2 ⟨h1, h2, h3, h4, h5, h6, by omega, by omega, by omega⟩)

theorem fromisoformat_iso (t : DateTime) (hv : validDT t) :
    fromisoformat (isoformatSec t) = .ok t := by
  obtain ⟨y, mo, d, h, mi, s⟩ := t
  obtain ⟨h1, h2, h3, h4, h5, h6, h7, h8, h9⟩ := (validDT_mk y mo d h mi s).1 hv
  have hdm := daysInMonth_le y mo
  simp only [isoformatSec, pad4, pad2, List.cons_append, List.nil_append, fromisoformat,
    isDigit_digitChar, Bool.and_self, if_true]
  rw [val4_pad y (by omega), val2_pad mo (by omega), val2_pad d (by omega),
    val2_pad h (by omega), val2_pad mi (by omega), val2_pad s (by omega)]
  exact mkValidDateTime_ok y mo d h mi s
    ((validDT_mk y mo d h mi s).2 ⟨h1, h2, h3, h4, h5, h6, h7, h8, h9⟩)

/-- C3: timestamp decoding returns the leftmost substring matching the
full date-time alternative or (at the same position, only second) the bare
date alternative, normalises the time separators to colons and parses the
result as extended ISO-8601; it reports no-timestamp exactly when no
position of the string matches either alternative; a bare date parses as
midnight; and concretely `"some_dataset_2021-07-07 13|33|13.csv"` decodes
to `2021-07-07T13:33:13` while `"there_is_no_date_here.csv"` has no
timestamp. -/
theorem timestamp_decode_leftmost :
    extract_iso_timestamp ("some_dataset_2021-07-07 13|33|13.csv".data)
      = .ok (some ⟨2021, 7, 7, 13, 33, 13⟩)
    ∧ extract_iso_timestamp ("there_is_no_date_here.csv".data) = .ok none
    ∧ (∀ l : List Char, extract_iso_timestamp l = .ok none ↔ ∀ i, tsMatchAt l i = false)
    ∧ (∀ (l : List Char) (i : Nat), tsMatchAt l i = true →
        (∀ j, j < i → tsMatchAt l j = false) →
        extract_iso_timestamp l
          = (fromisoformat (subNorm (matchAtHead (l.drop i)))).map some)
    ∧ (∀ y mo d : Nat, validDT ⟨y, mo, d, 0, 0, 0⟩ →
        fromisoformat (pad4 y ++ '-' :: pad2 mo ++ '-' :: pad2 d)
          = .ok ⟨y, mo, d, 0, 0, 0⟩) := by
  refine ⟨by decide, by decide, extract_eq_ok_none_iff, ?_, fromisoformat_date⟩
  intro l i hi hmin
  simp only [extract_iso_timestamp, findTs_leftmost l i hi hmin]

/-- Witness for C3's leftmost-match clause at a concrete key whose match
starts at position 1. -/
theorem timestamp_decode_leftmost_witness :
    extract_iso_timestamp ("x2021-07-07.csv".data)
      = (fromisoformat (subNorm (matchAtHead (("x2021-07-07.csv".data).drop 1)))).map some :=
  timestamp_decode_leftmost.2.2.2.1 ("x2021-07-07.csv".data) 1 (by decide) (by decide)

/-! ### Characterisation of the extension scanner -/

theorem span_all (p : Char → Bool) :
    ∀ (w rest : List Char), w.all p = true →
    (∀ c cs, rest = c :: cs → p c = false) →
    (w ++ rest).takeWhile p = w ∧ (w ++ rest).dropWhile p = rest
  | [], rest, _, hrest => by
    cases rest with
    | nil => exact ⟨rfl, rfl⟩
    | cons c cs =>
      have hc := hrest c cs rfl
      simp [List.takeWhile_cons, List.dropWhile_cons, hc]
  | a :: w, rest, hall, hrest => by
    have ha : p a = true ∧ w.all p = true := by simpa using hall
    have ih := span_all p w rest ha.2 hrest
    simp [List.takeWhile_cons, List.dropWhile_cons, ha.1, ih.1, ih.2]

theorem matchExtAt_inv (l w : List Char) :
    matchExtAt l = some w ↔
      ∃ t, l = '.' :: w ++ t ∧ w ≠ [] ∧ w.all isWordChar = true
        ∧ (t = [] ∨ t = ['\n']) := by
  constructor
  · intro h
    cases l with
    | nil => simp [matchExtAt] at h
    | cons c rest =>
      by_cases hc : c = '.'
      · subst hc
        rw [matchExtAt, if_pos rfl] at h
        by_cases hcond : (!(rest.takeWhile isWordChar).isEmpty
            && ((rest.dropWhile isWordChar).isEmpty
              || rest.dropWhile isWordChar == ['\n'])) = true
        · rw [if_pos hcond] at h
          obtain rfl : rest.takeWhile isWordChar = w := by injection h
          rw [Bool.and_eq_true, Bool.not_eq_true', Bool.or_eq_true] at hcond
          refine ⟨rest.dropWhile isWordChar,
            by rw [List.cons_append, List.takeWhile_append_dropWhile], ?_, ?_, ?_⟩
          · intro h0
            rw [h0] at hcond
            simp at hcond
          · exact List.all_eq_true.2 (fun x hx => List.mem_takeWhile_imp hx)
          · rcases hcond.2 with h2 | h2
            · exact Or.inl (List.isEmpty_iff.1 h2)
            · exact Or.inr (by simpa using h2)
        · rw [if_neg hcond] at h
          exact absurd h (by simp)
      · rw [matchExtAt, if_neg hc] at h
        exact absurd h (by simp)
  · rintro ⟨t, rfl, hne, hall, ht⟩
    have hsp := span_all isWordChar w t hall (by
      intro c cs hcs
      rcases ht with rfl | rfl
      · exact absurd hcs (by simp)
      · injection hcs with h1 h2
        subst h1
        decide)
    rw [List.cons_append, matchExtAt, if_pos rfl, hsp.1, hsp.2]
    have hcond : (!w.isEmpty && (t.isEmpty || t == ['\n'])) = true := by
      rw [Bool.and_eq_true, Bool.not_eq_true', Bool.or_eq_true]
      refine ⟨by simpa [List.isEmpty_iff] using hne, ?_⟩
      rcases ht with rfl | rfl
      · exact Or.inl rfl
      · exact Or.inr rfl
    rw [if_pos hcond]

theorem findExt_eq_some_iff (s w : List Char) :
    findExt s = some w ↔
      ∃ u t, s = u ++ '.' :: w ++ t ∧ w ≠ [] ∧ w.all isWordChar = true
        ∧ (t = [] ∨ t = ['\n']) := by
  induction s with
  | nil =>
    constructor
    · intro h
      simp [findExt] at h
    · rintro ⟨u, t, heq, -, -, -⟩
      exact absurd heq.symm (by simp)
  | cons c cs ih =>
    constructor
    · intro h
      cases hm : matchExtAt (c :: cs) with
      | some w0 =>
        have hw : some w0 = some w := by rw [← h]; simp [findExt, hm]
        obtain rfl : w0 = w := by injection hw
        obtain ⟨t, heq, hne, hall, ht⟩ := (matchExtAt_inv _ _).1 hm
        exact ⟨[], t, by simpa using heq, hne, hall, ht⟩
      | none =>
        have h' : findExt cs = some w := by rw [← h]; simp [findExt, hm]
        obtain ⟨u, t, heq, hne, hall, ht⟩ := ih.1 h'
        exact ⟨c :: u, t, by simp [heq], hne, hall, ht⟩
    · rintro ⟨u, t, heq, hne, hall, ht⟩
      cases u with
      | nil =>
        simp only [List.nil_append, List.cons_append, List.cons.injEq] at heq
        obtain ⟨rfl, rfl⟩ := heq
        have hm : matchExtAt ('.' :: (w ++ t)) = some w :=
          (matchExtAt_inv _ _).2 ⟨t, by rw [List.cons_append], hne, hall, ht⟩
        simp [findExt, hm]
      | cons d u2 =>
        have hcs : cs = u2 ++ '.' :: w ++ t := by
          rw [List.cons_append] at heq
          injection heq with h1 h2
        have hm : matchExtAt (c :: cs) = none := by
          cases hm2 : matchExtAt (c :: cs) with
          | none => rfl
          | some w2 =>
            exfalso
            obtain ⟨t2, heq2, -, hall2, ht2⟩ := (matchExtAt_inv _ _).1 hm2
            rw [List.cons_append] at heq2
            have hcseq : cs = w2 ++ t2 := by injection heq2 with h1 h2
            have hdot : ('.' : Char) ∈ cs := by rw [hcs]; simp
            rw [hcseq] at hdot
            rcases List.mem_append.1 hdot with hd | hd
            · exact absurd (List.all_eq_true.1 hall2 _ hd) (by decide)
            · rcases ht2 with rfl | rfl
              · simp at hd
              · exact absurd (List.mem_singleton.1 hd) (by decide)
        have h' : findExt cs = some w := ih.2 ⟨u2, t, hcs, hne, hall, ht⟩
        simp [findExt, hm, h']

theorem extract_format_split_iff (s : List Char) (f : String) :
    extract_file_format s = some f ↔
      ∃ u w t, s = u ++ '.' :: w ++ t ∧ w ≠ [] ∧ w.all isWordChar = true
        ∧ (t = [] ∨ t = ['\n'])
        ∧ FILE_FORMAT_EXTENSIONS.lookup (w.map pyLower) = some f := by
  constructor
  · intro h
    cases hf : findExt s with
    | none => rw [extract_file_format, hf] at h; exact absurd h (by simp)
    | some w0 =>
      rw [extract_file_format, hf] at h
      obtain ⟨u, t, heq, hne, hall, ht⟩ := (findExt_eq_some_iff s w0).1 hf
      exact ⟨u, w0, t, heq, hne, hall, ht, h⟩
  · rintro ⟨u, w, t, heq, hne, hall, ht, hlook⟩
    have hf : findExt s = some w := (findExt_eq_some_iff s w).2 ⟨u, t, heq, hne, hall, ht⟩
    simp [extract_file_format, hf, hlook]

/-- C8 (amended): format decoding succeeds with tag `f` exactly when the
key splits as `u ++ "." ++ w ++ t` where `w` is a non-empty run of word
characters, `t` is empty or a single key-terminating newline (Python's `$`
also matches just before a final newline), and the lower-cased `w` is in
the table csv→CSV, parquet→PARQUET, pkl→PICKLE; no-format exactly when no
such split exists. -/
theorem extract_file_format_characterisation (s : List Char) (f : String) :
    extract_file_format s = some f ↔
      ∃ u w t, s = u ++ '.' :: w ++ t ∧ w ≠ [] ∧ w.all isWordChar = true
        ∧ (t = [] ∨ t = ['\n'])
        ∧ FILE_FORMAT_EXTENSIONS.lookup (w.map pyLower) = some f :=
  extract_format_split_iff s f

/-- Witness for C8's amended characterisation: `"a.b.csv"` decodes as CSV
via the split at its last dot. -/
theorem extract_file_format_characterisation_witness :
    extract_file_format ("a.b.csv".data) = some "CSV" :=
  (extract_file_format_characterisation ("a.b.csv".data) "CSV").2
    ⟨("a.b".data), ("csv".data), [], by decide, by decide, by decide,
      Or.inl rfl, by decide⟩

/-- The format decode step as the specification document words it: take
the substring after the last `.`, lower-case it, and look it up in the
fixed table; no-format if there is no `.` or the extension is
unrecognised.  Stated for comparison with the implemented scanner. -/
def spec_extract_file_format (s : List Char) : Option String :=
  if ('.' : Char) ∈ s then
    FILE_FORMAT_EXTENSIONS.lookup
      (((s.reverse.takeWhile (fun c => c != '.')).reverse).map pyLower)
  else none

/-- Counterexample to C8 as stated: for the key `"a.csv\n"` the substring
after the last dot is `"csv\n"`, which is not in the table, so the claimed
rule yields no-format — but the code's end-anchor also matches just before
a single trailing newline and returns CSV. -/
theorem format_decode_trailing_newline_counterexample :
    extract_file_format ("a.csv\n".data) = some "CSV"
    ∧ spec_extract_file_format ("a.csv\n".data) = none := by
  constructor
  · decide
  · decide

/-! ### Round-trip of the filename codec -/

theorem findTs_cons_none_inv (c : Char) (cs : List Char) (h : findTs (c :: cs) = none) :
    matchesPat fullPat (c :: cs) = false ∧ matchesPat datePat (c :: cs) = false
      ∧ findTs cs = none := by
  rw [findTs_cons] at h
  have hA : matchesPat fullPat (c :: cs) = false := by
    by_contra hA'
    rw [Bool.not_eq_false] at hA'
    simp [hA'] at h
  have hB : matchesPat datePat (c :: cs) = false := by
    by_contra hB'
    rw [Bool.not_eq_false] at hB'
    simp [hA, hB'] at h
  exact ⟨hA, hB, by simpa [hA, hB] using h⟩

theorem fullPat_no_underscore : ∀ p ∈ fullPat, p '_' = false := by
  intro p hp
  fin_cases hp <;> decide

theorem datePat_no_underscore : ∀ p ∈ datePat, p '_' = false := by
  intro p hp
  fin_cases hp <;> decide

/-- No element of either regex alternative accepts `'_'`, so a failed match
inside a chunk stays failed when the chunk is followed by `'_'` and
anything else: no match can cross an underscore boundary. -/
theorem matchesPat_append_sep (pat : List (Char → Bool)) (hpat : ∀ p ∈ pat, p '_' = false) :
    ∀ (P Q : List Char), matchesPat pat P = false →
      matchesPat pat (P ++ '_' :: Q) = false := by
  intro P
  induction P generalizing pat with
  | nil =>
    intro Q h
    cases pat with
    | nil => simp [matchesPat] at h
    | cons p ps =>
      rw [List.nil_append, matchesPat, hpat p (List.mem_cons_self p ps)]
      rfl
  | cons c cs ih =>
    intro Q h
    cases pat with
    | nil => simp [matchesPat] at h
    | cons p ps =>
      rw [matchesPat, Bool.and_eq_false_iff] at h
      rw [List.cons_append, matchesPat]
      rcases h with h | h
      · rw [h]
        rfl
      · rw [ih ps (fun q hq => hpat q (List.mem_cons_of_mem p hq)) Q h]
        rw [Bool.and_false]

theorem findTs_append_none (P Q : List Char) (h : findTs P = none) :
    findTs (P ++ '_' :: Q) = findTs ('_' :: Q) := by
  induction P with
  | nil => rfl
  | cons c cs ih =>
    obtain ⟨hA, hB, hrec⟩ := findTs_cons_none_inv c cs h
    have hA2 := matchesPat_append_sep fullPat fullPat_no_underscore (c :: cs) Q hA
    have hB2 := matchesPat_append_sep datePat datePat_no_underscore (c :: cs) Q hB
    rw [List.cons_append] at hA2 hB2
    rw [List.cons_append, findTs_cons, hA2, hB2]
    simp only [if_false, Bool.false_eq_true]
    exact ih hrec

theorem findTs_underscore (Q : List Char) : findTs ('_' :: Q) = findTs Q := by
  have hd : ('_' : Char).isDigit = false := by decide
  have hA : matchesPat fullPat ('_' :: Q) = false := by
    rw [fullPat, matchesPat, hd, Bool.false_and]
  have hB : matchesPat datePat ('_' :: Q) = false := by
    rw [datePat, matchesPat, hd, Bool.false_and]
  rw [findTs_cons, hA, hB]
  simp only [if_false, Bool.false_eq_true]

theorem findTs_of_full (l : List Char) (h : matchesPat fullPat l = true) :
    findTs l = some (l.take 19) := by
  cases l with
  | nil =>
    rw [fullPat, matchesPat] at h
    exact absurd h (by decide)
  | cons c cs => rw [findTs_cons, if_pos h]

theorem length_isoformatSec (t : DateTime) : (isoformatSec t).length = 19 := by
  simp [isoformatSec, pad4, pad2]

theorem matchesPat_fullPat_iso (t : DateTime) (r : List Char) :
    matchesPat fullPat (isoformatSec t ++ r) = true := by
  simp [isoformatSec, pad4, pad2, fullPat, matchesPat, isDigit_digitChar,
    isNonWord_dash, isNonWord_colon, isSepST_T]

theorem subNorm_iso (t : DateTime) : subNorm (isoformatSec t) = isoformatSec t := by
  simp [isoformatSec, pad4, pad2, subNorm, isSepST_digitChar, isSepST_dash,
    isSepST_T, isDigit_digitChar, isNonWord_colon]

theorem findTs_make (stem : List Char) (t : DateTime) (ext : List Char)
    (hstem : findTs stem = none) :
    findTs (make_timestamped_filename stem t ext) = some (isoformatSec t) := by
  rw [make_timestamped_filename, List.append_assoc, List.cons_append,
    findTs_append_none stem _ hstem, findTs_underscore,
    findTs_of_full _ (matchesPat_fullPat_iso t ('.' :: ext)),
    List.take_left' (length_isoformatSec t)]

/-- Counterexample to C2 as stated (quantifying over every prefix): with
prefix `"2000-01-01"`, the encoded key's leftmost regex match is the date
inside the prefix, so decoding returns `2000-01-01T00:00:00` instead of
the encoded timestamp `2021-07-07T13:33:13`. -/
theorem roundtrip_fails_for_date_bearing_stem :
    extract_iso_timestamp (make_timestamped_filename ("2000-01-01".data)
        ⟨2021, 7, 7, 13, 33, 13⟩ ("csv".data))
      = .ok (some ⟨2000, 1, 1, 0, 0, 0⟩)
    ∧ (⟨2000, 1, 1, 0, 0, 0⟩ : DateTime) ≠ ⟨2021, 7, 7, 13, 33, 13⟩ := by
  exact ⟨by decide, by decide⟩

/-- C2 (amended): for every prefix in which the timestamp regex finds no
match, every supported format tag and every valid second-precision
timestamp, decoding the key produced by `make_timestamped_filename`
recovers exactly the encoded timestamp and the encoded format. -/
theorem make_timestamped_filename_roundtrip
    (stem : List Char) (t : DateTime) (ext : List Char) (tag : String)
    (hstem : findTs stem = none) (hv : validDT t)
    (hext : (ext = "csv".data ∧ tag = "CSV") ∨ (ext = "parquet".data ∧ tag = "PARQUET")
      ∨ (ext = "pkl".data ∧ tag = "PICKLE")) :
    extract_iso_timestamp (make_timestamped_filename stem t ext) = .ok (some t)
    ∧ extract_file_format (make_timestamped_filename stem t ext) = some tag := by
  constructor
  · simp only [extract_iso_timestamp, findTs_make stem t ext hstem, subNorm_iso,
      fromisoformat_iso t hv, Except.map]
  · apply (extract_format_split_iff _ tag).2
    refine ⟨stem ++ '_' :: isoformatSec t, ext, [], ?_, ?_, ?_, Or.inl rfl, ?_⟩
    · rw [make_timestamped_filename]
      simp [List.append_assoc]
    · rcases hext with ⟨rfl, -⟩ | ⟨rfl, -⟩ | ⟨rfl, -⟩ <;> decide
    · rcases hext with ⟨rfl, -⟩ | ⟨rfl, -⟩ | ⟨rfl, -⟩ <;> decide
    · rcases hext with ⟨rfl, rfl⟩ | ⟨rfl, rfl⟩ | ⟨rfl, rfl⟩ <;> decide

/-- Witness for C2 (amended), at the specification's own concrete
scenario: prefix `"training_data"`, timestamp `2021-07-12T13:00:00`,
format csv. -/
theorem make_timestamped_filename_roundtrip_witness :
    extract_iso_timestamp (make_timestamped_filename ("training_data".data)
        ⟨2021, 7, 12, 13, 0, 0⟩ ("csv".data)) = .ok (some ⟨2021, 7, 12, 13, 0, 0⟩)
    ∧ extract_file_format (make_timestamped_filename ("training_data".data)
        ⟨2021, 7, 12, 13, 0, 0⟩ ("csv".data)) = some "CSV" :=
  make_timestamped_filename_roundtrip ("training_data".data) ⟨2021, 7, 12, 13, 0, 0⟩
    ("csv".data) "CSV" (by decide) (by decide) (Or.inl ⟨rfl, rfl⟩)

/-! ### Dataset put operations -/

/-- Everything one invocation of a dataset put operation does before it
stops: it encodes the table into a temporary file, builds the timestamped
filename, and attempts the upload call
`put_file_to_s3(temp_file.name, bucket, folder, filename)`.  The record
captures the encoded payload, the target bucket and folder, the filename
passed as the call's fourth positional argument, and the outcome of that
call. -/
structure PutAttempt (δ : Type) where
  encoded : δ
  bucket : String
  folder : List Char
  filename : List Char
  outcome : Except String Unit

/-- The `TypeError` Python raises for
`put_file_to_s3(temp_file.name, bucket, folder, filename)`: `datasets.py`
imports `put_file_to_s3` from `aws.s3`, whose signature is
`(path_to_file, bucket, folder="")` — three parameters — so the
four-positional-argument call is rejected before the function body runs. -/
def put_file_to_s3_arity_error : String :=
  "put_file_to_s3() takes from 2 to 3 positional arguments but 4 were given"

/-- `put_csv_dataset_to_s3(data, filename_prefix, ref_datetime, bucket,
folder)` as shipped: the table is encoded and the timestamped filename is
built from the caller-supplied `ref_datetime` (not the call time), but
the upload call resolves to the three-parameter `put_file_to_s3` of
`s3.py` and is passed four positional arguments, so every invocation
raises `TypeError` and uploads nothing.  (`artefacts.py` contains the
intended four-parameter `put_file_to_s3` with `filename_override`, used
by `models.py`, but `datasets.py` does not import it.) -/
def put_csv_dataset_to_s3 {δ : Type} (data : δ) (stem : List Char)
    (ref_datetime : DateTime) (bucket : String) (folder : List Char) :
    PutAttempt δ :=
  { encoded := data, bucket := bucket, folder := folder,
    filename := make_timestamped_filename stem ref_datetime ("csv".data),
    outcome := .error put_file_to_s3_arity_error }

/-- `put_parquet_dataset_to_s3`: as the CSV variant with extension
`parquet`; the same four-positional-argument call fails identically. -/
def put_parquet_dataset_to_s3 {δ : Type} (data : δ) (stem : List Char)
    (ref_datetime : DateTime) (bucket : String) (folder : List Char) :
    PutAttempt δ :=
  { encoded := data, bucket := bucket, folder := folder,
    filename := make_timestamped_filename stem ref_datetime ("parquet".data),
    outcome := .error put_file_to_s3_arity_error }

/-- C5 (the code evaluated at the failing input): the claim — like the
functions' own docstrings — promises that each put call uploads a new
timestamped artefact, so a pair of calls creates two distinct objects;
but every invocation of the shipped `put_csv_dataset_to_s3` and
`put_parquet_dataset_to_s3` fails with the `TypeError` of the
four-positional-argument call to `s3.py`'s three-parameter
`put_file_to_s3` and uploads nothing; the filename each call constructs
before failing encodes the caller-supplied `ref_datetime`, not the call
time. -/
theorem put_dataset_always_raises_type_error :
    (∀ {δ : Type} (data : δ) (stem : List Char) (ref_datetime : DateTime)
        (bucket : String) (folder : List Char),
      (put_csv_dataset_to_s3 data stem ref_datetime bucket folder).outcome
          = .error put_file_to_s3_arity_error
        ∧ (put_parquet_dataset_to_s3 data stem ref_datetime bucket folder).outcome
          = .error put_file_to_s3_arity_error
        ∧ (put_csv_dataset_to_s3 data stem ref_datetime bucket folder).filename
          = make_timestamped_filename stem ref_datetime ("csv".data))
    ∧ (put_csv_dataset_to_s3 ([42] : List Nat) ("data".data) ⟨2021, 7, 12, 13, 0, 0⟩
        "my-bucket" ("datasets".data)).outcome = .error put_file_to_s3_arity_error
    ∧ (put_parquet_dataset_to_s3 ([42] : List Nat) ("data".data) ⟨2021, 7, 12, 13, 0, 0⟩
        "my-bucket" ("datasets".data)).outcome = .error put_file_to_s3_arity_error := by
  refine ⟨?_, rfl, rfl⟩
  intro δ data stem ref_datetime bucket folder
  exact ⟨rfl, rfl, rfl⟩

theorem digitChar_inj (a b : Nat) (ha : a < 10) (hb : b < 10)
    (h : digitChar a = digitChar b) : a = b := by
  interval_cases a <;> interval_cases b <;> revert h <;> decide

theorem isoformatSec_inj (t1 t2 : DateTime) (hv1 : validDT t1) (hv2 : validDT t2)
    (h : isoformatSec t1 = isoformatSec t2) : t1 = t2 := by
  obtain ⟨y1, mo1, d1, h1, mi1, s1⟩ := t1
  obtain ⟨y2, mo2, d2, h2, mi2, s2⟩ := t2
  obtain ⟨a1, a2, a3, a4, a5, a6, a7, a8, a9⟩ := (validDT_mk y1 mo1 d1 h1 mi1 s1).1 hv1
  obtain ⟨b1, b2, b3, b4, b5, b6, b7, b8, b9⟩ := (validDT_mk y2 mo2 d2 h2 mi2 s2).1 hv2
  have hdm1 := daysInMonth_le y1 mo1
  have hdm2 := daysInMonth_le y2 mo2
  simp only [isoformatSec, pad4, pad2, List.cons_append, List.nil_append,
    List.cons.injEq, and_true] at h
  obtain ⟨e1, e2, e3, e4, -, e5, e6, -, e7, e8, -, e9, e10, -, e11, e12, -, e13, e14⟩ := h
  have f1 := digitChar_inj _ _ (by omega) (by omega) e1
  have f2 := digitChar_inj _ _ (by omega) (by omega) e2
  have f3 := digitChar_inj _ _ (by omega) (by omega) e3
  have f4 := digitChar_inj _ _ (by omega) (by omega) e4
  have f5 := digitChar_inj _ _ (by omega) (by omega) e5
  have f6 := digitChar_inj _ _ (by omega) (by omega) e6
  have f7 := digitChar_inj _ _ (by omega) (by omega) e7
  have f8 := digitChar_inj _ _ (by omega) (by omega) e8
  have f9 := digitChar_inj _ _ (by omega) (by omega) e9
  have f10 := digitChar_inj _ _ (by omega) (by omega) e10
  have f11 := digitChar_inj _ _ (by omega) (by omega) e11
  have f12 := digitChar_inj _ _ (by omega) (by omega) e12
  have f13 := digitChar_inj _ _ (by omega) (by omega) e13
  have f14 := digitChar_inj _ _ (by omega) (by omega) e14
  have : y1 = y2 ∧ mo1 = mo2 ∧ d1 = d2 ∧ h1 = h2 ∧ mi1 = mi2 ∧ s1 = s2 := by omega
  simp only [DateTime.mk.injEq]
  exact ⟨this.1, this.2.1, this.2.2.1, this.2.2.2.1, this.2.2.2.2.1, this.2.2.2.2.2⟩

/-! ### Model envelope (`models.py`) -/

/-- The `Dataset` named tuple of `datasets.py`: table, reference
timestamp, bucket, key and content fingerprint (etag). -/
structure Dataset (δ : Type) where
  data : δ
  datetime : DateTime
  bucket : String
  key : String
  hash : String

/-- Outcome of `pickle.dumps(model, protocol=5)`: success with the byte
string, a `PicklingError`, or any other exception (CPython raises e.g.
`TypeError` for unpicklable objects and `RecursionError` for deeply
recursive ones). -/
inductive DumpsResult where
  | ok (bytes : List Nat)
  | picklingError (msg : String)
  | otherError (msg : String)
deriving DecidableEq, Repr

/-- `Model._compute_model_hash`: `md5(pickle.dumps(model,
protocol=5)).hexdigest()` inside one `try`; `except PicklingError` reports
"Could not pickle model into bytes before hashing." and `except
Exception` reports "Could not hash model.".  The `dumps` outcome is an
explicit parameter; `md5hex` is the digest function, which is total on
bytes, so the generic handler only ever fires for a non-`PicklingError`
raised by `dumps` itself. -/
def compute_model_hash (dumps_model : DumpsResult)
    (md5hex : List Nat → String) : Except String String :=
  match dumps_model with
  | .ok bs => .ok (md5hex bs)
  | .picklingError _ => .error ("Could not pickle model into bytes before hashing.")
  | .otherError _ => .error ("Could not hash model.")

/-- The fields `Model.__init__` stores.  `α` is the wrapped model object's
type, `μ` the metadata mapping's type; creation times are modelled at
second precision. -/
structure Model (α μ : Type) where
  name : String
  model : α
  train_dataset_key : String
  train_dataset_hash : String
  model_hash : String
  model_type : String
  creation_time : DateTime
  pipeline_git_commit_hash : String
  metadata : Option μ

/-- `Model.__eq__`: equality of the four provenance fields only —
training-dataset fingerprint, training-dataset key, creation timestamp
and source-revision identifier; the wrapped model, its hash and its type
are ignored (any two `Model` instances are comparable). -/
def Model.eq {a1 u1 a2 u2 : Type} (a : Model a1 u1) (b : Model a2 u2) : Bool :=
  (a.train_dataset_hash == b.train_dataset_hash)
    && (a.train_dataset_key == b.train_dataset_key)
    && (a.creation_time == b.creation_time)
    && (a.pipeline_git_commit_hash == b.pipeline_git_commit_hash)

/-- `Model.__init__` with its effects passed explicitly: `now` models
`datetime.now()`, `env_git_commit` models
`environ.get("GIT_COMMIT_HASH")` (defaulted to "NA"), and the dumps
outcome/digest feed `_compute_model_hash`, whose failure aborts
construction. -/
def mkModel {α δ μ : Type} (name : String) (model : α) (model_type : String)
    (train_dataset : Dataset δ) (metadata : Option μ)
    (dumps_model : DumpsResult) (md5hex : List Nat → String)
    (now : DateTime) (env_git_commit : Option String) : Except String (Model α μ) :=
  match compute_model_hash dumps_model md5hex with
  | .error e => .error e
  | .ok h =>
    .ok { name := name, model := model,
          train_dataset_key := train_dataset.key,
          train_dataset_hash := train_dataset.hash,
          model_hash := h, model_type := model_type,
          creation_time := now,
          pipeline_git_commit_hash := env_git_commit.getD "NA",
          metadata := metadata }

/-- C6: two envelopes compare equal iff their four identity fields match
(training-dataset fingerprint, training-dataset key, creation timestamp,
source-revision identifier); two envelopes built from the same dataset at
the same instant under the same environment are equal even when their
wrapped models, names, metadata, dumps outcomes and digests all differ;
and changing any single one of the four fields breaks equality. -/
theorem model_equality_provenance :
    (∀ {a1 u1 a2 u2 δ : Type} (n1 n2 : String) (m1 : a1) (m2 : a2) (ty1 ty2 : String)
      (ds : Dataset δ) (md1 : Option u1) (md2 : Option u2)
      (du1 du2 : DumpsResult) (f1 f2 : List Nat → String) (now : DateTime)
      (env : Option String) (M1 : Model a1 u1) (M2 : Model a2 u2),
      mkModel n1 m1 ty1 ds md1 du1 f1 now env = .ok M1 →
      mkModel n2 m2 ty2 ds md2 du2 f2 now env = .ok M2 →
      Model.eq M1 M2 = true)
    ∧ (∀ {a1 u1 a2 u2 : Type} (a : Model a1 u1) (b : Model a2 u2),
      Model.eq a b = true ↔
        (a.train_dataset_hash = b.train_dataset_hash
          ∧ a.train_dataset_key = b.train_dataset_key
          ∧ a.creation_time = b.creation_time
          ∧ a.pipeline_git_commit_hash = b.pipeline_git_commit_hash))
    ∧ (∀ {a1 u1 : Type} (a : Model a1 u1) (x : String), x ≠ a.train_dataset_hash →
        Model.eq a { a with train_dataset_hash := x } = false)
    ∧ (∀ {a1 u1 : Type} (a : Model a1 u1) (x : String), x ≠ a.train_dataset_key →
        Model.eq a { a with train_dataset_key := x } = false)
    ∧ (∀ {a1 u1 : Type} (a : Model a1 u1) (x : DateTime), x ≠ a.creation_time →
        Model.eq a { a with creation_time := x } = false)
    ∧ (∀ {a1 u1 : Type} (a : Model a1 u1) (x : String), x ≠ a.pipeline_git_commit_hash →
        Model.eq a { a with pipeline_git_commit_hash := x } = false) := by
  refine ⟨?_, ?_, ?_, ?_, ?_, ?_⟩
  · intro a1 u1 a2 u2 δ n1 n2 m1 m2 ty1 ty2 ds md1 md2 du1 du2 f1 f2 now env M1 M2 hc1 hc2
    rcases hd1 : compute_model_hash du1 f1 with e1 | h1 <;>
      rw [mkModel, hd1] at hc1
    · exact absurd hc1 (by simp)
    rcases hd2 : compute_model_hash du2 f2 with e2 | h2 <;>
      rw [mkModel, hd2] at hc2
    · exact absurd hc2 (by simp)
    obtain rfl : _ = M1 := by injection hc1
    obtain rfl : _ = M2 := by injection hc2
    simp [Model.eq]
  · intro a1 u1 a2 u2 a b
    simp [Model.eq, and_assoc]
  · intro a1 u1 a x hx
    simp [Model.eq, Ne.symm hx]
  · intro a1 u1 a x hx
    simp [Model.eq, Ne.symm hx]
  · intro a1 u1 a x hx
    simp [Model.eq, Ne.symm hx]
  · intro a1 u1 a x hx
    simp [Model.eq, Ne.symm hx]

/-- Witness for C6: two concrete envelopes wrapping different model
objects of different types, with different names, hashes, digests and
metadata, built from the same dataset reference at the same instant with
the same revision, compare equal. -/
theorem model_equality_provenance_witness :
    Model.eq
      (⟨"model-a", (0 : Nat), "key", "hash", "h1", "int",
        ⟨2021, 7, 12, 13, 0, 0⟩, "NA", (none : Option Nat)⟩ : Model Nat Nat)
      (⟨"model-b", ("x" : String), "key", "hash", "h2", "str",
        ⟨2021, 7, 12, 13, 0, 0⟩, "NA", (none : Option Nat)⟩ : Model String Nat) = true :=
  model_equality_provenance.1 "model-a" "model-b" (0 : Nat) ("x" : String) "int" "str"
    (⟨(0 : Nat), ⟨2021, 7, 12, 13, 0, 0⟩, "bkt", "key", "hash"⟩ : Dataset Nat)
    (none : Option Nat) (none : Option Nat)
    (.ok [1]) (.ok [2]) (fun _ => "h1") (fun _ => "h2")
    ⟨2021, 7, 12, 13, 0, 0⟩ (none : Option String)
    (⟨"model-a", (0 : Nat), "key", "hash", "h1", "int",
      ⟨2021, 7, 12, 13, 0, 0⟩, "NA", (none : Option Nat)⟩ : Model Nat Nat)
    (⟨"model-b", ("x" : String), "key", "hash", "h2", "str",
      ⟨2021, 7, 12, 13, 0, 0⟩, "NA", (none : Option Nat)⟩ : Model String Nat)
    rfl rfl

/-- Counterexample to C9 as stated: `pickle.dumps` can fail with an
exception that is not a `PicklingError` (e.g. the `TypeError` CPython
raises for generators or open files); then serialization failed, yet the
error reported is "Could not hash model.", not "could not pickle model",
contradicting "pickle-error exactly when serialization fails". -/
theorem hash_error_kind_counterexample :
    compute_model_hash (.otherError "cannot pickle generator object") (fun _ => "")
      = .error ("Could not hash model.")
    ∧ (∀ bs, DumpsResult.otherError "cannot pickle generator object"
        ≠ DumpsResult.ok bs)
    ∧ ("Could not hash model." : String)
      ≠ "Could not pickle model into bytes before hashing." := by
  refine ⟨rfl, ?_, by decide⟩
  intro bs h
  exact DumpsResult.noConfusion h

/-- C9 (amended): the hashing step distinguishes error kinds by exception
type, not by step: "could not pickle model" is reported exactly when
serialization raises a `PicklingError`, and "could not hash model"
exactly when it raises any other exception (the digest itself is total);
on success the digest of the serialized bytes is returned, and the two
messages are distinct, so callers can tell the kinds apart. -/
theorem compute_model_hash_error_kinds (du : DumpsResult) (f : List Nat → String) :
    (compute_model_hash du f
        = .error ("Could not pickle model into bytes before hashing.")
      ↔ ∃ m, du = .picklingError m)
    ∧ (compute_model_hash du f = .error ("Could not hash model.")
      ↔ ∃ m, du = .otherError m)
    ∧ (∀ bs, du = .ok bs → compute_model_hash du f = .ok (f bs))
    ∧ ("Could not pickle model into bytes before hashing." : String)
      ≠ "Could not hash model." := by
  have hmsg : ("Could not pickle model into bytes before hashing." : String)
      ≠ ("Could not hash model." : String) := by decide
  refine ⟨?_, ?_, ?_, hmsg⟩
  · cases du <;> simp [compute_model_hash, hmsg, Ne.symm hmsg]
  · cases du <;> simp [compute_model_hash, hmsg, Ne.symm hmsg]
  · intro bs h
    rw [h, compute_model_hash]

/-- Witness for C9 (amended): a successful dumps outcome hashes to the
digest of its bytes. -/
theorem compute_model_hash_error_kinds_witness :
    compute_model_hash (.ok [1, 2]) (fun _ => "abc") = .ok "abc" :=
  (compute_model_hash_error_kinds (.ok [1, 2]) (fun _ => "abc")).2.2.1 [1, 2] rfl

end BPU
